import Mathlib

/-!
Verification of the DatapowerToAWS gateway core against its specification.

The development shallowly embeds the two core Python modules:
  * `generated_aws_code/transformer.py` — JSON→SOAP translation and backend dispatch
  * `generated_aws_code/authorizer.py` — LDAP-backed API-gateway authorizer

Library calls (json.loads, base64 decoding, LDAP operations, the HTTP client)
are modelled as oracle inputs supplied to the handlers; everything the Python
code itself computes is translated directly.
-/

set_option maxHeartbeats 1000000

/-- JSON values as produced by Python's `json.loads`: `null` models Python
`None`, objects are insertion-ordered key/value lists (Python dicts, so keys
are unique). -/
inductive Json : Type where
  | null : Json
  | bool : Bool → Json
  | num : Int → Json
  | str : String → Json
  | obj : List (String × Json) → Json
  | arr : List Json → Json
deriving Repr

/-- Python `str()` of a scalar JSON value (`str(None) = "None"`,
`str(True) = "True"`, etc.). Containers never reach `str()` in the code
paths we model, so they are given their scalar-branch fallbacks only for
totality of the translation. -/
def pyStr : Json → String
  | Json.null => "None"
  | Json.bool true => "True"
  | Json.bool false => "False"
  | Json.num n => toString n
  | Json.str s => s
  | Json.obj _ => "dict"
  | Json.arr _ => "list"

/-- Python `dict.get(key)` on a JSON object: value of the key if present,
`None` (= `Json.null`) otherwise. Only ever applied to `Json.obj` in the
modelled code. -/
def Json.get : Json → String → Json
  | Json.obj fields, k =>
      match fields.find? (fun kv => kv.1 = k) with
      | some kv => kv.2
      | none => Json.null
  | _, _ => Json.null

/-- Whether a parsed body is a dict; `body.get(...)` in `transformer.py`
raises `AttributeError` (→ the generic 500 handler) on anything else. -/
def Json.isObj : Json → Bool
  | Json.obj _ => true
  | _ => false

/-- An `xml.etree.ElementTree` element: tag, attributes, optional text,
children (in document order). -/
inductive XmlElem : Type where
  | mk : String → List (String × String) → Option String → List XmlElem → XmlElem
deriving Repr

def XmlElem.tag : XmlElem → String
  | XmlElem.mk t _ _ _ => t

def XmlElem.attrs : XmlElem → List (String × String)
  | XmlElem.mk _ a _ _ => a

def XmlElem.text : XmlElem → Option String
  | XmlElem.mk _ _ x _ => x

def XmlElem.children : XmlElem → List XmlElem
  | XmlElem.mk _ _ _ c => c

/-- `ET.Element(tag)`: fresh element, no attributes, no text, no children. -/
def XmlElem.empty (tag : String) : XmlElem :=
  XmlElem.mk tag [] none []

/-- Assigning `element.text = s`. -/
def XmlElem.setText : XmlElem → String → XmlElem
  | XmlElem.mk t a _ c, s => XmlElem.mk t a (some s) c

/-- Appending a fully built child (`parent.append(child)` /
the effect of `ET.SubElement` once the child is complete). -/
def XmlElem.addChild : XmlElem → XmlElem → XmlElem
  | XmlElem.mk t a x c, child => XmlElem.mk t a x (c ++ [child])

mutual

/-- `transformer.json_to_xml_elements(parent, json_data)`: recursively
converts a JSON value into XML under `parent`, returning the mutated parent.
Dicts append one sub-element per key; lists recurse on the *parent* for each
item; scalars set `parent.text = str(json_data)`. -/
def json_to_xml_elements (parent : XmlElem) : Json → XmlElem
  | Json.obj fields => jsonFieldsToXml parent fields
  | Json.arr items => jsonItemsToXml parent items
  | j => parent.setText (pyStr j)

/-- The dict loop of `json_to_xml_elements`: for each `(key, value)`,
`child = ET.SubElement(parent, key)` then recurse into `child`. -/
def jsonFieldsToXml (parent : XmlElem) : List (String × Json) → XmlElem
  | [] => parent
  | (k, v) :: rest =>
      jsonFieldsToXml (parent.addChild (json_to_xml_elements (XmlElem.empty k) v)) rest

/-- The list loop of `json_to_xml_elements`: each item is rendered into the
same parent element. -/
def jsonItemsToXml (parent : XmlElem) : List Json → XmlElem
  | [] => parent
  | item :: rest => jsonItemsToXml (json_to_xml_elements parent item) rest

end

def SOAP_ENV_NS : String := "http://schemas.xmlsoap.org/soap/envelope/"

def WSSE_NS : String :=
  "http://docs.oasis-open.org/wss/2004/01/oasis-200401-wss-wssecurity-secext-1.0.xsd"

def WSU_NS : String :=
  "http://docs.oasis-open.org/wss/2004/01/oasis-200401-wss-wssecurity-utility-1.0.xsd"

/-- ElementTree's qualified-name convention `{namespace}local`. -/
def qn (ns localName : String) : String := "\x7b" ++ ns ++ "\x7d" ++ localName

/-- `transformer.build_wsse_header(username, password)`: the WS-Security
UsernameToken header fragment. -/
def build_wsse_header (username password : String) : XmlElem :=
  XmlElem.mk (qn WSSE_NS "Security") [] none
    [XmlElem.mk (qn WSSE_NS "UsernameToken") [(qn WSU_NS "Id", "UsernameToken-1")] none
      [XmlElem.mk (qn WSSE_NS "Username") [] (some username) [],
       XmlElem.mk (qn WSSE_NS "Password")
         [("Type",
           "http://docs.oasis-open.org/wss/2004/01/oasis-200401-wss-username-token-profile-1.0#PasswordText")]
         (some password) []]]

/-- `transformer.create_soap_envelope(body_content, wsse_header)` up to the
final `ET.tostring` serialization (a library call): the envelope tree. -/
def create_soap_envelope (body_content : XmlElem) (wsse_header : Option XmlElem) : XmlElem :=
  let header :=
    match wsse_header with
    | some h => XmlElem.mk (qn SOAP_ENV_NS "Header") [] none [h]
    | none => XmlElem.mk (qn SOAP_ENV_NS "Header") [] none []
  XmlElem.mk (qn SOAP_ENV_NS "Envelope") [] none
    [header, XmlElem.mk (qn SOAP_ENV_NS "Body") [] none [body_content]]

/-- One `json_to_xml_elements(ET.SubElement(root, wrapperName), body.get(key))`
step of the route branches in `transformer.handler`. -/
def wrapField (root : XmlElem) (wrapperName : String) (body : Json) (key : String) : XmlElem :=
  root.addChild (json_to_xml_elements (XmlElem.empty wrapperName) (body.get key))

/-- The SOAP body built by either route branch of `transformer.handler`;
the two branches differ only in the operation name and the first wrapper
name (`Customer` vs `Applicant`). -/
def routeSoapBody (operationName firstWrapper : String) (body : Json) : XmlElem :=
  wrapField
    (wrapField
      (wrapField
        (wrapField (XmlElem.empty operationName) firstWrapper body "customer")
        "Address" body "address")
      "Demographics" body "demographics")
    "Employment" body "employment"

/-- Outcome of `requests.post` + `response.raise_for_status()` as seen by the
handler: either an HTTP response (status, `response.text`, and the `str(e)`
the library would use for the `HTTPError` raised on a 4xx/5xx status), or a
transport-level `RequestException` (connection failure / timeout) with its
`str(e)`. -/
inductive BackendResult : Type where
  | response : Nat → String → String → BackendResult
  | transportError : String → BackendResult
deriving Repr

/-- A Lambda proxy response dict: status code, headers, body. -/
structure HttpResp : Type where
  statusCode : Nat
  headers : List (String × String)
  body : String
deriving Repr, DecidableEq

/-- The inbound translation event. `username`/`password` model
`event.requestContext.authorizer.{username,password}` (absent key → `none`);
`body` carries the `json.loads` outcome of the raw body string (`none` when
the `body` key is absent, in which case the code parses the default `"{}"`);
`path` models `event.get('path', '')`. -/
structure TransEvent : Type where
  username : Option String
  password : Option String
  body : Option (Except Unit Json)
  path : Option String

/-- Python truthiness of an optional string (`None` and `''` are falsy). -/
def truthy : Option String → Bool
  | none => false
  | some s => s ≠ ""

namespace Transformer

/-- Steps 6–7 of `transformer.handler`: POST the envelope, call
`raise_for_status()` (which raises `HTTPError`, a `RequestException`, for
any 4xx/5xx status), and either relay the response or fall into the
`except RequestException` handler (502). -/
def dispatchBackend : BackendResult → HttpResp × Bool
  | BackendResult.response status text errText =>
      if 400 ≤ status ∧ status < 600 then
        (HttpResp.mk 502 []
          ("Bad Gateway: Could not connect to backend service. " ++ errText), true)
      else
        (HttpResp.mk status [("Content-Type", "application/xml")] text, true)
  | BackendResult.transportError errText =>
      (HttpResp.mk 502 []
        ("Bad Gateway: Could not connect to backend service. " ++ errText), true)

/-- `transformer.handler`. `backend` is the HTTP-client oracle: the outcome
of POSTing a given envelope to `BACKEND_URL`. Returns the response dict and
whether the backend was POSTed to. The route branches call `body.get`,
which raises `AttributeError` on a non-dict body; that lands in the generic
`except Exception` → 500 arm. -/
def handler (backend : XmlElem → BackendResult) (event : TransEvent) : HttpResp × Bool :=
  if !truthy event.username || !truthy event.password then
    (HttpResp.mk 403 [] "Forbidden: No identity context found.", false)
  else
    match event.body.getD (Except.ok (Json.obj [])) with
    | Except.error _ => (HttpResp.mk 400 [] "Invalid JSON in request body.", false)
    | Except.ok body =>
        let path := event.path.getD ""
        let username := event.username.getD ""
        let password := event.password.getD ""
        if path = "/v1/customer" then
          if body.isObj then
            dispatchBackend (backend (create_soap_envelope
              (routeSoapBody "SaveCustomerInfo" "Customer" body)
              (some (build_wsse_header username password))))
          else
            (HttpResp.mk 500 [] "Internal Server Error: AttributeError", false)
        else if path = "/v1/underwriting/submit" then
          if body.isObj then
            dispatchBackend (backend (create_soap_envelope
              (routeSoapBody "SubmitApplication" "Applicant" body)
              (some (build_wsse_header username password))))
          else
            (HttpResp.mk 500 [] "Internal Server Error: AttributeError", false)
        else
          (HttpResp.mk 404 [] ("Endpoint " ++ path ++ " not found."), false)

end Transformer

/-- The LDAP connection secret fetched from Secrets Manager, with the fields
`authorizer.handler` reads out of it (retrieval or field-access failure is
folded into the `getSecret` oracle below). -/
structure LdapSecret : Type where
  host : String
  port : Int
  base_dn : String
  use_ssl : Bool
  bind_dn : String
  bind_password : String

/-- Oracles for the authorizer's library calls: secret retrieval
(`get_ldap_secret`, may raise), `base64.b64decode(...).decode('utf-8')`
(may raise `binascii.Error`/`UnicodeDecodeError`), the service-account
`auto_bind` outcome (`False` models the raised `LDAPBindError`), the user
search (`conn.entries` first DN, `none` when empty), the end-user bind, and
the group-membership search (`is_member and admin_conn.entries`). -/
structure AuthEnv : Type where
  getSecret : Except Unit LdapSecret
  b64decode : String → Except Unit String
  adminBind : Bool
  searchUser : String → Option String
  userBind : String → String → Bool
  groupSearch : String → Bool

/-- The inbound authorizer event: its `headers` dict and its `methodArn`
key (`none` models the key being absent, so that `event['methodArn']`
raises `KeyError`). -/
structure AuthEvent : Type where
  headers : List (String × String)
  methodArn : Option String

/-- Exact-key dict lookup, `event.get('headers', {}).get('Authorization')`. -/
def lookupHeader (hs : List (String × String)) (k : String) : Option String :=
  match hs.find? (fun kv => kv.1 = k) with
  | some kv => some kv.2
  | none => none

/-- Python `s.lower()` (ASCII case folding, which is all the header check
needs). -/
def pyLower (s : String) : String :=
  String.mk (s.data.map Char.toLower)

def pyStartsWithCh : List Char → List Char → Bool
  | _, [] => true
  | [], _ :: _ => false
  | c :: cs, d :: ds => c = d && pyStartsWithCh cs ds

/-- Python `s.startswith(p)`. -/
def pyStartsWith (s p : String) : Bool :=
  pyStartsWithCh s.data p.data

def splitChar (sep : Char) : List Char → List (List Char)
  | [] => [[]]
  | c :: cs =>
      if c = sep then [] :: splitChar sep cs
      else
        match splitChar sep cs with
        | [] => [[c]]
        | g :: gs => (c :: g) :: gs

/-- Python `s.split(' ')`: split on every single space, keeping empty
pieces. -/
def pySplitSpace (s : String) : List String :=
  (splitChar ' ' s.data).map String.mk

def breakAtColon : List Char → Option (List Char × List Char)
  | [] => none
  | c :: cs =>
      if c = ':' then some ([], cs)
      else
        match breakAtColon cs with
        | none => none
        | some lr => some (c :: lr.1, lr.2)

/-- Python `decoded_creds.split(':', 1)` followed by the 2-tuple unpacking:
`none` models the `ValueError` raised when there is no colon. -/
def splitFirstColon (s : String) : Option (String × String) :=
  match breakAtColon s.data with
  | none => none
  | some lr => some (String.mk lr.1, String.mk lr.2)

namespace Authorizer

/-- The identity context dict `{"username": ..., "password": ...}` attached
to an Allow policy for the backend's WS-Security header. -/
structure IdentityCtx : Type where
  username : String
  password : String
deriving DecidableEq, Repr

/-- The policy object returned by the authorizer (`version`/`action` are the
constant fields of the policy document). -/
structure AuthDecision : Type where
  principalId : String
  version : String
  action : String
  effect : String
  resource : String
  context : Option IdentityCtx
deriving DecidableEq, Repr

/-- `authorizer.generate_policy`: `context=None` omits the context key. -/
def generate_policy (principal_id effect resource : String)
    (context : Option IdentityCtx) : AuthDecision :=
  AuthDecision.mk principal_id "2012-10-17" "execute-api:Invoke" effect resource context

/-- `authorizer.generate_allow_policy`. -/
def generate_allow_policy (principal_id resource : String) (context : IdentityCtx) :
    AuthDecision :=
  generate_policy principal_id "Allow" resource (some context)

/-- `authorizer.generate_deny_policy`: principal is always the placeholder
`'user'` and no context is attached. -/
def generate_deny_policy (resource : String) : AuthDecision :=
  generate_policy "user" "Deny" resource none

/-- `event['methodArn']` at a policy-returning site: raises `KeyError`
(modelled as `Except.error`) when the key is absent. -/
def policyAt (ma : Option String) (mk : String → AuthDecision) :
    Except Unit AuthDecision :=
  match ma with
  | some arn => Except.ok (mk arn)
  | none => Except.error ()

/-- The `try:` body of `authorizer.handler` (lines 37–93): any library
exception is `Except.error`, which the enclosing handler converts to a
deny policy. -/
def handlerTry (env : AuthEnv) (event : AuthEvent) : Except Unit AuthDecision :=
  match env.getSecret with
  | Except.error _ => Except.error ()
  | Except.ok _secret =>
      if !truthy (lookupHeader event.headers "Authorization")
          || !pyStartsWith
            (pyLower ((lookupHeader event.headers "Authorization").getD "")) "basic " then
        policyAt event.methodArn (fun arn => generate_policy "user" "Deny" arn none)
      else
        match (pySplitSpace ((lookupHeader event.headers "Authorization").getD "")).get? 1 with
        | none => Except.error ()
        | some encoded_creds =>
            match env.b64decode encoded_creds with
            | Except.error _ => Except.error ()
            | Except.ok decoded_creds =>
                match splitFirstColon decoded_creds with
                | none => Except.error ()
                | some (username, password) =>
                    if !env.adminBind then Except.error ()
                    else
                      match env.searchUser username with
                      | none => policyAt event.methodArn generate_deny_policy
                      | some user_dn =>
                          if !env.userBind user_dn password then Except.error ()
                          else if !env.adminBind then Except.error ()
                          else if !env.groupSearch user_dn then
                            policyAt event.methodArn generate_deny_policy
                          else
                            policyAt event.methodArn (fun arn =>
                              generate_allow_policy username arn
                                (IdentityCtx.mk username password))

/-- `authorizer.handler`: the `try` body plus the `except Exception` arm,
which itself evaluates `event['methodArn']` and therefore raises `KeyError`
(overall `Except.error`) when that key is absent. -/
def handler (env : AuthEnv) (event : AuthEvent) : Except Unit AuthDecision :=
  match handlerTry env event with
  | Except.ok d => Except.ok d
  | Except.error _ => policyAt event.methodArn generate_deny_policy

end Authorizer

/-- XML text-escaping of one character, as applied by `ET.tostring` to text
nodes (`&`, `<`, `>` become entities). -/
def escChar (c : Char) : List Char :=
  if c = '&' then ['&', 'a', 'm', 'p', ';']
  else if c = '<' then ['&', 'l', 't', ';']
  else if c = '>' then ['&', 'g', 't', ';']
  else [c]

/-- XML text-escaping of a character list. -/
def escList : List Char → List Char
  | [] => []
  | c :: cs => escChar c ++ escList cs

/-- XML text-unescaping, as applied by `ET.fromstring` to character data:
recognizes the entities produced by `escList`. -/
def unescList : List Char → List Char
  | '&' :: 'a' :: 'm' :: 'p' :: ';' :: rest => '&' :: unescList rest
  | '&' :: 'l' :: 't' :: ';' :: rest => '<' :: unescList rest
  | '&' :: 'g' :: 't' :: ';' :: rest => '>' :: unescList rest
  | c :: cs => c :: unescList cs
  | [] => []

def escapeXml (s : String) : String := String.mk (escList s.data)

def unescapeXml (s : String) : String := String.mk (unescList s.data)

mutual

/-- Apply a function to every text node of an element tree. -/
def XmlElem.mapText (f : String → String) : XmlElem → XmlElem
  | XmlElem.mk t a x c => XmlElem.mk t a (x.map f) (mapTextList f c)

def mapTextList (f : String → String) : List XmlElem → List XmlElem
  | [] => []
  | c :: cs => XmlElem.mapText f c :: mapTextList f cs

end

/-- Modelled library behavior (`ET.tostring` then `ET.fromstring`): for a
tree whose tags are well-formed XML names, serializing and re-parsing
preserves structure and attributes and sends every text node through
XML escaping followed by unescaping. -/
def parseOfSerialize (t : XmlElem) : XmlElem :=
  XmlElem.mapText (fun s => unescapeXml (escapeXml s)) t

def validNameChar (c : Char) : Bool :=
  c.isAlphanum || c = '_' || c = '-' || c = '.'

/-- Well-formed (unqualified) XML element name. -/
def validXmlName (s : String) : Bool :=
  match s.data with
  | [] => false
  | c :: cs => (c.isAlpha || c = '_') && cs.all validNameChar

def keys (fields : List (String × Json)) : List String :=
  fields.map (fun kv => kv.1)

/-- Key uniqueness of a dict level (always true of `json.loads` output). -/
def nodupBool : List String → Bool
  | [] => true
  | k :: ks => (!ks.contains k) && nodupBool ks

def Json.isScalar : Json → Bool
  | Json.obj _ => false
  | Json.arr _ => false
  | _ => true

mutual

/-- A JSON value that is a (possibly nested) object whose leaves are all
scalars, with unique keys at every level — the shape quantified over by the
round-trip property. -/
def scalarObj : Json → Bool
  | Json.obj fields => nodupBool (keys fields) && scalarObjFields fields
  | Json.arr _ => false
  | _ => true

def scalarObjFields : List (String × Json) → Bool
  | [] => true
  | (_, v) :: rest => scalarObj v && scalarObjFields rest

end

mutual

/-- Object-nesting depth: scalars have depth 0, an object is one deeper than
its deepest value. -/
def objDepth : Json → Nat
  | Json.obj fields => 1 + objDepthFields fields
  | _ => 0

def objDepthFields : List (String × Json) → Nat
  | [] => 0
  | (_, v) :: rest => max (objDepth v) (objDepthFields rest)

end

mutual

/-- All object keys in the value are well-formed XML names (needed for the
serialized document to be parseable). -/
def validKeys : Json → Bool
  | Json.obj fields => validKeysFields fields
  | Json.arr items => validKeysItems items
  | _ => true

def validKeysFields : List (String × Json) → Bool
  | [] => true
  | (k, v) :: rest => validXmlName k && validKeys v && validKeysFields rest

def validKeysItems : List Json → Bool
  | [] => true
  | v :: rest => validKeys v && validKeysItems rest

end

mutual

/-- The key paths of a JSON value leading to its (scalar) leaves, paired
with the leaf values. -/
def leafPaths : Json → List (List String × Json)
  | Json.obj fields => leafPathsFields fields
  | j => [([], j)]

def leafPathsFields : List (String × Json) → List (List String × Json)
  | [] => []
  | (k, v) :: rest =>
      (leafPaths v).map (fun pv => (k :: pv.1, pv.2)) ++ leafPathsFields rest

end

/-- The element a dict entry `(key, value)` renders to: a fresh element
named `key` filled in by `json_to_xml_elements`. -/
def renderPair (kv : String × Json) : XmlElem :=
  json_to_xml_elements (XmlElem.empty kv.1) kv.2

/-- The sibling elements an array item contributes when rendered into the
parent: a dict item contributes one element per key, anything else
contributes no element (scalars only overwrite the parent's text). -/
def renderedFields : Json → List XmlElem
  | Json.obj fl => fl.map renderPair
  | _ => []

mutual

/-- All elements reached from `t` by following a path of child tag names. -/
def elemsAt : List String → XmlElem → List XmlElem
  | [], t => [t]
  | k :: p, t => elemsAtChildren k p t.children

def elemsAtChildren (k : String) (p : List String) : List XmlElem → List XmlElem
  | [] => []
  | c :: cs => (if c.tag = k then elemsAt p c else []) ++ elemsAtChildren k p cs

end

mutual

/-- Number of elements in the tree carrying the given tag. -/
def countTag (tg : String) : XmlElem → Nat
  | XmlElem.mk t _ _ c => (if t = tg then 1 else 0) + countTagList tg c

def countTagList (tg : String) : List XmlElem → Nat
  | [] => 0
  | c :: cs => countTag tg c + countTagList tg cs

end

mutual

/-- Text contents of all elements in the tree carrying the given tag, in
document order. -/
def textsOfTag (tg : String) : XmlElem → List (Option String)
  | XmlElem.mk t _ x c => (if t = tg then [x] else []) ++ textsOfTagList tg c

def textsOfTagList (tg : String) : List XmlElem → List (Option String)
  | [] => []
  | c :: cs => textsOfTag tg c ++ textsOfTagList tg cs

end

/-- Concrete LDAP secret used by the example environments. -/
def sampleSecret : LdapSecret :=
  LdapSecret.mk "ldap.example.com" 389 "dc=example,dc=com" false
    "cn=svc,dc=example,dc=com" "svcpw"

/-- Base64 oracle decoding the header payload `YWxpY2U6cHc=` to `alice:pw`. -/
def b64Alice : String → Except Unit String :=
  fun s => if s = "YWxpY2U6cHc=" then Except.ok "alice:pw" else Except.error ()

/-- Environment in which the directory search finds no entry for any user. -/
def envUserNotFound : AuthEnv :=
  AuthEnv.mk (Except.ok sampleSecret) b64Alice true (fun _ => none)
    (fun _ _ => false) (fun _ => false)

/-- Environment in which everything succeeds for `alice`/`pw`. -/
def envAllowAll : AuthEnv :=
  AuthEnv.mk (Except.ok sampleSecret) b64Alice true
    (fun u => if u = "alice" then some "cn=alice,ou=Users,dc=example,dc=com" else none)
    (fun _ pw => pw = "pw") (fun _ => true)

/-- Environment in which the user DN resolves but the user's bind fails. -/
def envBindFail : AuthEnv :=
  AuthEnv.mk (Except.ok sampleSecret) b64Alice true
    (fun u => if u = "alice" then some "cn=alice,ou=Users,dc=example,dc=com" else none)
    (fun _ _ => false) (fun _ => false)

/-- Environment in which secret retrieval itself raises. -/
def envFault : AuthEnv :=
  AuthEnv.mk (Except.error ()) (fun _ => Except.error ()) false (fun _ => none)
    (fun _ _ => false) (fun _ => false)

/-- Event with a well-formed basic-auth header and a `methodArn`. -/
def eventBasic : AuthEvent :=
  AuthEvent.mk [("Authorization", "Basic YWxpY2U6cHc=")] (some "arn1")

/-- Event with no headers and no `methodArn` key. -/
def eventNoArn : AuthEvent :=
  AuthEvent.mk [] none

theorem unescList_cons_ne (c : Char) (l : List Char) (h : c ≠ '&') :
    unescList (c :: l) = c :: unescList l := by
  rw [unescList.eq_def]
  split <;> simp_all

theorem unescList_escList (l : List Char) : unescList (escList l) = l := by
  induction l with
  | nil => rfl
  | cons c cs ih =>
      by_cases h1 : c = '&'
      · subst h1
        have he : escList ('&' :: cs) = '&' :: 'a' :: 'm' :: 'p' :: ';' :: escList cs := by
          show escChar '&' ++ escList cs = _
          rw [show escChar '&' = ['&', 'a', 'm', 'p', ';'] from by decide]
          rfl
        rw [he]
        show '&' :: unescList (escList cs) = '&' :: cs
        rw [ih]
      · by_cases h2 : c = '<'
        · subst h2
          have he : escList ('<' :: cs) = '&' :: 'l' :: 't' :: ';' :: escList cs := by
            show escChar '<' ++ escList cs = _
            rw [show escChar '<' = ['&', 'l', 't', ';'] from by decide]
            rfl
          rw [he]
          show '<' :: unescList (escList cs) = '<' :: cs
          rw [ih]
        · by_cases h3 : c = '>'
          · subst h3
            have he : escList ('>' :: cs) = '&' :: 'g' :: 't' :: ';' :: escList cs := by
              show escChar '>' ++ escList cs = _
              rw [show escChar '>' = ['&', 'g', 't', ';'] from by decide]
              rfl
            rw [he]
            show '>' :: unescList (escList cs) = '>' :: cs
            rw [ih]
          · have he : escList (c :: cs) = c :: escList cs := by
              show escChar c ++ escList cs = _
              simp [escChar, h1, h2, h3]
            rw [he, unescList_cons_ne c _ h1, ih]

theorem unescape_escape (s : String) : unescapeXml (escapeXml s) = s := by
  cases s with
  | mk l =>
      show String.mk (unescList (escList l)) = String.mk l
      rw [unescList_escList]

mutual

theorem mapText_esc_elem (t : XmlElem) :
    XmlElem.mapText (fun s => unescapeXml (escapeXml s)) t = t := by
  cases t with
  | mk tg a x c =>
      rw [XmlElem.mapText, mapText_esc_list c]
      cases x with
      | none => rfl
      | some s =>
          show XmlElem.mk tg a (some (unescapeXml (escapeXml s))) c = _
          rw [unescape_escape]

theorem mapText_esc_list (l : List XmlElem) :
    mapTextList (fun s => unescapeXml (escapeXml s)) l = l := by
  cases l with
  | nil => rfl
  | cons c cs => rw [mapTextList, mapText_esc_elem c, mapText_esc_list cs]

end

theorem parseOfSerialize_id (t : XmlElem) : parseOfSerialize t = t :=
  mapText_esc_elem t

theorem render_scalar (t : String) (a : List (String × String)) (x : Option String)
    (c : List XmlElem) (j : Json) (h : j.isScalar = true) :
    json_to_xml_elements (XmlElem.mk t a x c) j = XmlElem.mk t a (some (pyStr j)) c := by
  cases j <;> first | rfl | simp [Json.isScalar] at h

theorem jsonFieldsToXml_eq (fields : List (String × Json)) (t : String)
    (a : List (String × String)) (x : Option String) (c : List XmlElem) :
    jsonFieldsToXml (XmlElem.mk t a x c) fields =
      XmlElem.mk t a x (c ++ fields.map renderPair) := by
  induction fields generalizing c with
  | nil => simp [jsonFieldsToXml]
  | cons kv rest ih =>
      cases kv with
      | mk k v =>
          show jsonFieldsToXml (XmlElem.mk t a x (c ++ [renderPair (k, v)])) rest = _
          rw [ih]
          simp

theorem render_obj (t : String) (a : List (String × String)) (x : Option String)
    (c : List XmlElem) (fields : List (String × Json)) :
    json_to_xml_elements (XmlElem.mk t a x c) (Json.obj fields) =
      XmlElem.mk t a x (c ++ fields.map renderPair) := by
  show jsonFieldsToXml (XmlElem.mk t a x c) fields = _
  exact jsonFieldsToXml_eq fields t a x c

theorem renderPair_tag (k : String) (v : Json) (h : scalarObj v = true) :
    (renderPair (k, v)).tag = k := by
  cases v with
  | obj fields =>
      show (json_to_xml_elements (XmlElem.mk k [] none []) (Json.obj fields)).tag = k
      rw [render_obj]
      rfl
  | arr items => simp [scalarObj] at h
  | null => rfl
  | bool b => rfl
  | num n => rfl
  | str s => rfl

theorem scalarObj_obj (fields : List (String × Json)) (h : scalarObj (Json.obj fields) = true) :
    nodupBool (keys fields) = true ∧ scalarObjFields fields = true := by
  rw [scalarObj] at h
  exact And.intro (Bool.and_elim_left h) (Bool.and_elim_right h)

theorem scalarObjFields_cons (k : String) (v : Json) (rest : List (String × Json))
    (h : scalarObjFields ((k, v) :: rest) = true) :
    scalarObj v = true ∧ scalarObjFields rest = true := by
  rw [scalarObjFields] at h
  exact And.intro (Bool.and_elim_left h) (Bool.and_elim_right h)

theorem scalarObjFields_mem (fields : List (String × Json)) (k : String) (v : Json)
    (hs : scalarObjFields fields = true) (hm : (k, v) ∈ fields) :
    scalarObj v = true := by
  induction fields with
  | nil => cases hm
  | cons kv rest ih =>
      cases kv with
      | mk k1 v1 =>
          rcases scalarObjFields_cons k1 v1 rest hs with ⟨h1, h2⟩
          rcases List.mem_cons.mp hm with heq | hmem
          · cases heq
            exact h1
          · exact ih h2 hmem

theorem nodupBool_cons (k : String) (ks : List String) (h : nodupBool (k :: ks) = true) :
    ks.contains k = false ∧ nodupBool ks = true := by
  rw [nodupBool] at h
  have h1 := Bool.and_elim_left h
  have h2 := Bool.and_elim_right h
  exact And.intro (by simpa using h1) h2

theorem keys_not_contains (ks : List String) (k : String) (h : ks.contains k = false) :
    k ∉ ks := by
  intro hm
  rw [show ks.contains k = ks.elem k from rfl, List.elem_iff.mpr hm] at h
  cases h

theorem mem_keys_of_mem (fields : List (String × Json)) (k : String) (v : Json)
    (hm : (k, v) ∈ fields) : k ∈ keys fields := by
  rw [keys]
  exact List.mem_map.mpr ⟨(k, v), hm, rfl⟩

theorem elemsAtChildren_nil_of_not_mem (k : String) (p : List String)
    (fields : List (String × Json)) (hs : scalarObjFields fields = true)
    (hk : k ∉ keys fields) :
    elemsAtChildren k p (fields.map renderPair) = [] := by
  induction fields with
  | nil => simp [elemsAtChildren]
  | cons kv rest ih =>
      cases kv with
      | mk k1 v1 =>
          rcases scalarObjFields_cons k1 v1 rest hs with ⟨h1, h2⟩
          have hk1 : k1 ≠ k := by
            intro he
            exact hk (by rw [keys, List.map_cons, he]; exact List.mem_cons_self _ _)
          have hkrest : k ∉ keys rest := by
            intro hm
            exact hk (by rw [keys, List.map_cons]; exact List.mem_cons_of_mem _ hm)
          rw [List.map_cons, elemsAtChildren, renderPair_tag k1 v1 h1, if_neg hk1,
            List.nil_append]
          exact ih h2 hkrest

theorem elemsAtChildren_map (fields : List (String × Json)) (k : String) (p : List String)
    (vk : Json) (hs : scalarObjFields fields = true)
    (hnd : nodupBool (keys fields) = true) (hm : (k, vk) ∈ fields) :
    elemsAtChildren k p (fields.map renderPair) = elemsAt p (renderPair (k, vk)) := by
  induction fields with
  | nil => cases hm
  | cons kv rest ih =>
      cases kv with
      | mk k1 v1 =>
          rcases scalarObjFields_cons k1 v1 rest hs with ⟨h1, h2⟩
          have hnd' : nodupBool (k1 :: keys rest) = true := by
            rw [keys, List.map_cons] at hnd
            exact hnd
          rcases nodupBool_cons k1 (keys rest) hnd' with ⟨hc, hndr⟩
          rw [List.map_cons, elemsAtChildren, renderPair_tag k1 v1 h1]
          rcases List.mem_cons.mp hm with heq | hmem
          · cases heq
            rw [if_pos rfl,
              elemsAtChildren_nil_of_not_mem k p rest h2 (keys_not_contains _ _ hc),
              List.append_nil]
          · have hk1 : k1 ≠ k := by
              intro he
              exact keys_not_contains _ _ hc (he ▸ mem_keys_of_mem rest k vk hmem)
            rw [if_neg hk1, List.nil_append]
            exact ih h2 hndr hmem

theorem leafPaths_scalar (j : Json) (h : j.isScalar = true) :
    leafPaths j = [([], j)] := by
  cases j <;> first | rfl | simp [Json.isScalar] at h

theorem mem_leafPathsFields (fields : List (String × Json)) (p : List String) (v : Json)
    (h : (p, v) ∈ leafPathsFields fields) :
    ∃ k p2 vv, p = k :: p2 ∧ (k, vv) ∈ fields ∧ (p2, v) ∈ leafPaths vv := by
  induction fields with
  | nil => cases h
  | cons kv rest ih =>
      cases kv with
      | mk k1 v1 =>
          rw [leafPathsFields] at h
          rcases List.mem_append.mp h with hl | hr
          · rcases List.mem_map.mp hl with ⟨q, hq, he⟩
            have hv : q.2 = v := congrArg Prod.snd he
            refine ⟨k1, q.1, v1, (congrArg Prod.fst he).symm, List.mem_cons_self _ _, ?_⟩
            rw [← hv]
            exact hq
          · rcases ih hr with ⟨k, p2, vv, h1, h2, h3⟩
            exact ⟨k, p2, vv, h1, List.mem_cons_of_mem _ h2, h3⟩

theorem elemsAt_render (p : List String) (j : Json) (v : Json) (rootTag : String)
    (hs : scalarObj j = true) (hm : (p, v) ∈ leafPaths j) :
    ∃ e, elemsAt p (json_to_xml_elements (XmlElem.empty rootTag) j) = [e] ∧
      e.text = some (pyStr v) ∧ e.children = [] := by
  induction p generalizing j v rootTag with
  | nil =>
      cases hj : j with
      | obj fields =>
          subst hj
          rcases mem_leafPathsFields fields [] v (by rw [← leafPaths]; exact hm) with
            ⟨k, p2, vv, h1, _, _⟩
          cases h1
      | arr items => subst hj; simp [scalarObj] at hs
      | null =>
          subst hj
          have h : v = Json.null := by simpa [leafPaths] using hm
          subst h
          refine ⟨XmlElem.mk rootTag [] (some (pyStr Json.null)) [], ?_, rfl, rfl⟩
          rw [XmlElem.empty, render_scalar rootTag [] none [] Json.null rfl, elemsAt]
      | bool b =>
          subst hj
          have h : v = Json.bool b := by simpa [leafPaths] using hm
          subst h
          refine ⟨XmlElem.mk rootTag [] (some (pyStr (Json.bool b))) [], ?_, rfl, rfl⟩
          rw [XmlElem.empty, render_scalar rootTag [] none [] (Json.bool b) rfl, elemsAt]
      | num n =>
          subst hj
          have h : v = Json.num n := by simpa [leafPaths] using hm
          subst h
          refine ⟨XmlElem.mk rootTag [] (some (pyStr (Json.num n))) [], ?_, rfl, rfl⟩
          rw [XmlElem.empty, render_scalar rootTag [] none [] (Json.num n) rfl, elemsAt]
      | str s =>
          subst hj
          have h : v = Json.str s := by simpa [leafPaths] using hm
          subst h
          refine ⟨XmlElem.mk rootTag [] (some (pyStr (Json.str s))) [], ?_, rfl, rfl⟩
          rw [XmlElem.empty, render_scalar rootTag [] none [] (Json.str s) rfl, elemsAt]
  | cons k p2 ih =>
      cases hj : j with
      | obj fields =>
          subst hj
          rcases scalarObj_obj fields hs with ⟨hnd, hsf⟩
          rcases mem_leafPathsFields fields (k :: p2) v
              (by rw [← leafPaths]; exact hm) with ⟨k0, p0, vv, h1, h2, h3⟩
          injection h1 with hk hp
          subst hk
          subst hp
          rw [XmlElem.empty, render_obj, List.nil_append, elemsAt,
            show (XmlElem.mk rootTag [] none (fields.map renderPair)).children =
              fields.map renderPair from rfl,
            elemsAtChildren_map fields k p2 vv hsf hnd h2]
          exact ih vv v k (scalarObjFields_mem fields k vv hsf h2) h3
      | arr items => subst hj; simp [scalarObj] at hs
      | null => subst hj; simp [leafPaths] at hm
      | bool b => subst hj; simp [leafPaths] at hm
      | num n => subst hj; simp [leafPaths] at hm
      | str s => subst hj; simp [leafPaths] at hm

theorem jsonItemsToXml_objs (items : List Json) (t : String) (a : List (String × String))
    (x : Option String) (c : List XmlElem) :
    (∀ it ∈ items, it.isObj = true) →
    jsonItemsToXml (XmlElem.mk t a x c) items =
      XmlElem.mk t a x (c ++ items.flatMap renderedFields) := by
  induction items generalizing c with
  | nil =>
      intro _
      simp [jsonItemsToXml]
  | cons it rest ih =>
      intro h
      have hhead : it.isObj = true := h it (List.mem_cons_self _ _)
      have hrest : ∀ y ∈ rest, y.isObj = true := fun y hy => h y (List.mem_cons_of_mem _ hy)
      cases it with
      | obj fl =>
          rw [jsonItemsToXml, render_obj, ih (c ++ fl.map renderPair) hrest,
            List.flatMap_cons, List.append_assoc]
          rfl
      | null => simp [Json.isObj] at hhead
      | bool b => simp [Json.isObj] at hhead
      | num n => simp [Json.isObj] at hhead
      | str s => simp [Json.isObj] at hhead
      | arr l => simp [Json.isObj] at hhead

theorem jsonItemsToXml_scalars (items : List Json) (lastv : Json) (t : String)
    (a : List (String × String)) (x : Option String) (c : List XmlElem) :
    (∀ it ∈ items, it.isScalar = true) → lastv.isScalar = true →
    jsonItemsToXml (XmlElem.mk t a x c) (items ++ [lastv]) =
      XmlElem.mk t a (some (pyStr lastv)) c := by
  induction items generalizing x with
  | nil =>
      intro _ hl
      rw [List.nil_append, jsonItemsToXml, render_scalar t a x c lastv hl, jsonItemsToXml]
  | cons it rest ih =>
      intro h hl
      have hhead : it.isScalar = true := h it (List.mem_cons_self _ _)
      have hrest : ∀ y ∈ rest, y.isScalar = true := fun y hy => h y (List.mem_cons_of_mem _ hy)
      rw [List.cons_append, jsonItemsToXml, render_scalar t a x c it hhead]
      exact ih (some (pyStr it)) hrest hl

/-- C1 counterexample: with a valid identity, a parseable body and a known
route, a backend response with status 404 and body `<fault/>` is NOT relayed
verbatim — `raise_for_status()` turns it into a 502 Bad-Gateway response
with a different body. -/
theorem backend_status_relay_counterexample :
    Transformer.handler (fun _ => BackendResult.response 404 "<fault/>" "404 Client Error")
      (TransEvent.mk (some "u") (some "pw") (some (Except.ok (Json.obj [])))
        (some "/v1/customer")) =
      (HttpResp.mk 502 [] "Bad Gateway: Could not connect to backend service. 404 Client Error",
        true) ∧
    (502 : Nat) ≠ 404 :=
  ⟨rfl, by decide⟩

/-- C1 (amended): the dispatch step forwards the backend's status code and
body verbatim (with response header `Content-Type: application/xml`) only
for statuses outside 400–599; for any 4xx/5xx backend status,
`raise_for_status()` raises and the handler replaces the response with a
502 Bad-Gateway response. -/
theorem backend_status_relay (backend : XmlElem → BackendResult) (event : TransEvent)
    (u pw : String) (b : Json) (s : Nat) (text errText : String)
    (hu : event.username = some u) (hu2 : u ≠ "")
    (hpw : event.password = some pw) (hpw2 : pw ≠ "")
    (hb : event.body = some (Except.ok b)) (hob : b.isObj = true)
    (hpath : event.path = some "/v1/customer")
    (hbk : backend (create_soap_envelope (routeSoapBody "SaveCustomerInfo" "Customer" b)
        (some (build_wsse_header u pw))) = BackendResult.response s text errText) :
    Transformer.handler backend event =
      ((if 400 ≤ s ∧ s < 600 then
          HttpResp.mk 502 [] ("Bad Gateway: Could not connect to backend service. " ++ errText)
        else HttpResp.mk s [("Content-Type", "application/xml")] text), true) := by
  unfold Transformer.handler
  rw [hu, hpw, hb, hpath]
  simp [truthy, hu2, hpw2, hob, hbk, Transformer.dispatchBackend]
  split <;> rfl

theorem backend_status_relay_witness :
    Transformer.handler (fun _ => BackendResult.response 200 "<ok/>" "")
      (TransEvent.mk (some "u") (some "pw") (some (Except.ok (Json.obj [])))
        (some "/v1/customer")) =
      ((if 400 ≤ 200 ∧ 200 < 600 then
          HttpResp.mk 502 [] ("Bad Gateway: Could not connect to backend service. " ++ "")
        else HttpResp.mk 200 [("Content-Type", "application/xml")] "<ok/>"), true) :=
  backend_status_relay _ _ "u" "pw" (Json.obj []) 200 "<ok/>" "" rfl (by decide) rfl
    (by decide) rfl rfl rfl rfl

/-- C8: a translation request with a valid identity context and a parseable
body whose path is not a supported route yields the 404 outcome and never
POSTs to the backend. -/
theorem unknown_route_not_found (backend : XmlElem → BackendResult) (event : TransEvent)
    (b : Json) (pth : String)
    (hu : truthy event.username = true) (hpw : truthy event.password = true)
    (hb : event.body.getD (Except.ok (Json.obj [])) = Except.ok b)
    (hpath : event.path.getD "" = pth)
    (h1 : pth ≠ "/v1/customer") (h2 : pth ≠ "/v1/underwriting/submit") :
    Transformer.handler backend event =
      (HttpResp.mk 404 [] ("Endpoint " ++ pth ++ " not found."), false) := by
  unfold Transformer.handler
  rw [hu, hpw, hb, hpath]
  simp [h1, h2]

theorem unknown_route_not_found_witness :
    Transformer.handler (fun _ => BackendResult.transportError "boom")
      (TransEvent.mk (some "u") (some "pw") (some (Except.ok (Json.obj []))) (some "/nope")) =
      (HttpResp.mk 404 [] ("Endpoint " ++ "/nope" ++ " not found."), false) :=
  unknown_route_not_found _ _ (Json.obj []) "/nope" rfl rfl rfl rfl (by decide) (by decide)

/-- C10: the missing-identity 403 outcome takes precedence over body parsing
and route lookup (it fires for every event lacking a truthy username or
password, whatever the body and path), and with identity present the 400
outcome for malformed JSON takes precedence over the 404 for an unknown
path (it fires whatever the path). -/
theorem identity_check_precedence :
    (∀ (backend : XmlElem → BackendResult) (event : TransEvent),
      truthy event.username = false ∨ truthy event.password = false →
      Transformer.handler backend event =
        (HttpResp.mk 403 [] "Forbidden: No identity context found.", false)) ∧
    (∀ (backend : XmlElem → BackendResult) (event : TransEvent),
      truthy event.username = true → truthy event.password = true →
      event.body = some (Except.error ()) →
      Transformer.handler backend event =
        (HttpResp.mk 400 [] "Invalid JSON in request body.", false)) := by
  constructor
  · intro backend event h
    unfold Transformer.handler
    rcases h with h | h <;> simp [h]
  · intro backend event h1 h2 hb
    unfold Transformer.handler
    simp [h1, h2, hb]

theorem identity_check_precedence_witness :
    Transformer.handler (fun _ => BackendResult.transportError "boom")
      (TransEvent.mk none (some "pw") (some (Except.error ())) (some "/nope")) =
      (HttpResp.mk 403 [] "Forbidden: No identity context found.", false) ∧
    Transformer.handler (fun _ => BackendResult.transportError "boom")
      (TransEvent.mk (some "u") (some "pw") (some (Except.error ())) (some "/nope")) =
      (HttpResp.mk 400 [] "Invalid JSON in request body.", false) :=
  ⟨identity_check_precedence.1 _ _ (Or.inl rfl),
   identity_check_precedence.2 _ _ rfl rfl rfl⟩

/-- C4 counterexample: on route `/v1/customer` with the empty body `{}`
(which contains none of the configured fields), all four wrapper elements
are still emitted, each with text `None` — not omitted as the claim
states. -/
theorem wrapper_absent_field_counterexample :
    (routeSoapBody "SaveCustomerInfo" "Customer" (Json.obj [])).children =
      [XmlElem.mk "Customer" [] (some "None") [],
       XmlElem.mk "Address" [] (some "None") [],
       XmlElem.mk "Demographics" [] (some "None") [],
       XmlElem.mk "Employment" [] (some "None") []] ∧
    (routeSoapBody "SaveCustomerInfo" "Customer" (Json.obj [])).children.length = 4 :=
  ⟨rfl, rfl⟩

/-- C4 (amended): the body builder creates a wrapper element for every
configured field group unconditionally; when a configured field key is
absent from the body, `body.get` yields `None` and the wrapper is emitted
with text `"None"` (and no content elements). -/
theorem wrapper_always_created :
    (∀ opName fw body,
      (routeSoapBody opName fw body).children =
        [json_to_xml_elements (XmlElem.empty fw) (body.get "customer"),
         json_to_xml_elements (XmlElem.empty "Address") (body.get "address"),
         json_to_xml_elements (XmlElem.empty "Demographics") (body.get "demographics"),
         json_to_xml_elements (XmlElem.empty "Employment") (body.get "employment")]) ∧
    (∀ wname, json_to_xml_elements (XmlElem.empty wname) Json.null =
      XmlElem.mk wname [] (some "None") []) ∧
    (∀ fields k, fields.find? (fun kv => kv.1 = k) = none →
      Json.get (Json.obj fields) k = Json.null) := by
  refine ⟨fun opName fw body => rfl, fun wname => rfl, fun fields k h => ?_⟩
  simp [Json.get, h]

theorem wrapper_always_created_witness :
    Json.get (Json.obj [("other", Json.num 1)]) "customer" = Json.null ∧
    (routeSoapBody "SaveCustomerInfo" "Customer" (Json.obj [("other", Json.num 1)])).children =
      [json_to_xml_elements (XmlElem.empty "Customer")
        ((Json.obj [("other", Json.num 1)]).get "customer"),
       json_to_xml_elements (XmlElem.empty "Address")
        ((Json.obj [("other", Json.num 1)]).get "address"),
       json_to_xml_elements (XmlElem.empty "Demographics")
        ((Json.obj [("other", Json.num 1)]).get "demographics"),
       json_to_xml_elements (XmlElem.empty "Employment")
        ((Json.obj [("other", Json.num 1)]).get "employment")] :=
  ⟨wrapper_always_created.2.2 [("other", Json.num 1)] "customer" rfl,
   wrapper_always_created.1 "SaveCustomerInfo" "Customer" (Json.obj [("other", Json.num 1)])⟩

/-- C5 counterexample: rendering the 2-item array `[1, 2]` does not produce
2 sibling renderings: it produces no sibling elements at all, and only the
last item survives as the parent's text. -/
theorem array_items_counterexample :
    json_to_xml_elements (XmlElem.empty "Items") (Json.arr [Json.num 1, Json.num 2]) =
      XmlElem.mk "Items" [] (some "2") [] ∧
    (json_to_xml_elements (XmlElem.empty "Items")
      (Json.arr [Json.num 1, Json.num 2])).children.length = 0 :=
  ⟨rfl, rfl⟩

/-- C5 (amended): each array item is rendered into the parent element
itself. Items that are objects contribute their fields as sibling elements
of the parent (flattened, not wrapped); scalar items merely assign the
parent's text, each overwriting the previous, so only the last scalar item
appears. -/
theorem array_items_rendering :
    (∀ t a x c items, (∀ it ∈ items, it.isObj = true) →
      json_to_xml_elements (XmlElem.mk t a x c) (Json.arr items) =
        XmlElem.mk t a x (c ++ items.flatMap renderedFields)) ∧
    (∀ t a x c items lastv, (∀ it ∈ items, it.isScalar = true) → lastv.isScalar = true →
      json_to_xml_elements (XmlElem.mk t a x c) (Json.arr (items ++ [lastv])) =
        XmlElem.mk t a (some (pyStr lastv)) c) := by
  constructor
  · intro t a x c items h
    show jsonItemsToXml (XmlElem.mk t a x c) items = _
    exact jsonItemsToXml_objs items t a x c h
  · intro t a x c items lastv h hl
    show jsonItemsToXml (XmlElem.mk t a x c) (items ++ [lastv]) = _
    exact jsonItemsToXml_scalars items lastv t a x c h hl

theorem array_items_rendering_witness :
    json_to_xml_elements (XmlElem.mk "P" [] none [])
        (Json.arr [Json.obj [("a", Json.num 1)], Json.obj [("a", Json.num 2)]]) =
      XmlElem.mk "P" [] none
        ([] ++ [Json.obj [("a", Json.num 1)], Json.obj [("a", Json.num 2)]].flatMap
          renderedFields) ∧
    json_to_xml_elements (XmlElem.mk "Q" [] none []) (Json.arr ([Json.num 1] ++ [Json.num 2])) =
      XmlElem.mk "Q" [] (some (pyStr (Json.num 2))) [] :=
  ⟨array_items_rendering.1 "P" [] none [] _ (by simp [Json.isObj]),
   array_items_rendering.2 "Q" [] none [] [Json.num 1] (Json.num 2)
     (by simp [Json.isScalar]) rfl⟩

/-- C7: the WS-Security header fragment contains exactly one `Username`
element (text = the identity's username) and exactly one `Password` element
(text = the identity's password), for every identity; XML text escaping
round-trips every password, in particular `a&b<c>`. -/
theorem wsse_header_contents (u p : String) :
    countTag (qn WSSE_NS "Username") (build_wsse_header u p) = 1 ∧
    countTag (qn WSSE_NS "Password") (build_wsse_header u p) = 1 ∧
    textsOfTag (qn WSSE_NS "Username") (build_wsse_header u p) = [some u] ∧
    textsOfTag (qn WSSE_NS "Password") (build_wsse_header u p) = [some p] ∧
    unescapeXml (escapeXml p) = p ∧
    unescapeXml (escapeXml "a&b<c>") = "a&b<c>" := by
  have n1 : ¬(qn WSSE_NS "Security" = qn WSSE_NS "Username") := by decide
  have n2 : ¬(qn WSSE_NS "UsernameToken" = qn WSSE_NS "Username") := by decide
  have n3 : ¬(qn WSSE_NS "Password" = qn WSSE_NS "Username") := by decide
  have n4 : ¬(qn WSSE_NS "Security" = qn WSSE_NS "Password") := by decide
  have n5 : ¬(qn WSSE_NS "UsernameToken" = qn WSSE_NS "Password") := by decide
  have n6 : ¬(qn WSSE_NS "Username" = qn WSSE_NS "Password") := by decide
  refine ⟨?_, ?_, ?_, ?_, unescape_escape p, unescape_escape _⟩ <;>
    simp [build_wsse_header, countTag, countTagList, textsOfTag, textsOfTagList,
      n1, n2, n3, n4, n5, n6]

/-- C2 counterexample: on an event whose `methodArn` key is absent, the
`except` block itself evaluates `event['methodArn']` and the resulting
`KeyError` escapes `authorizer.handler` — the handler is not total. -/
theorem authorizer_total_counterexample :
    Authorizer.handler envFault eventNoArn = Except.error () :=
  rfl

/-- C2 (amended): for every inbound event that carries a `methodArn`, the
authorizer handler returns exactly one policy object under any oracle
outcome (secret retrieval failure, bind failure, malformed header, ...);
when `methodArn` is absent, the `KeyError` raised inside the `except` block
escapes instead. -/
theorem authorizer_total_with_arn (env : AuthEnv) (event : AuthEvent) (arn : String)
    (h : event.methodArn = some arn) :
    ∃ d, Authorizer.handler env event = Except.ok d := by
  unfold Authorizer.handler
  cases ht : Authorizer.handlerTry env event with
  | ok d => exact ⟨d, rfl⟩
  | error e =>
      refine ⟨Authorizer.generate_deny_policy arn, ?_⟩
      show Authorizer.policyAt event.methodArn Authorizer.generate_deny_policy = _
      rw [h]
      rfl

theorem authorizer_total_with_arn_witness :
    eventBasic.methodArn = some "arn1" ∧
    ∃ d, Authorizer.handler envFault eventBasic = Except.ok d :=
  ⟨rfl, authorizer_total_with_arn envFault eventBasic "arn1" rfl⟩

/-- C3 counterexample: with a header that parses to the credentials
`alice:pw` but a directory in which the user is not found, the returned
Deny decision carries the generic placeholder principal `user`, not the
extracted username `alice`. -/
theorem deny_principal_counterexample :
    Authorizer.handler envUserNotFound eventBasic =
      Except.ok (Authorizer.AuthDecision.mk "user" "2012-10-17" "execute-api:Invoke"
        "Deny" "arn1" none) ∧
    splitFirstColon "alice:pw" = some ("alice", "pw") ∧
    "user" ≠ "alice" :=
  ⟨rfl, rfl, by decide⟩

/-- C3 (amended): for every credential presentation whose header parses
successfully (scheme prefix present, payload decodes, colon separator
found) but whose directory search finds no user entry or whose user bind
fails, the authorizer returns a Deny decision whose principal is the
generic placeholder `user` (never the extracted username) and which
carries no identity context. -/
theorem parsed_creds_deny_placeholder (env : AuthEnv) (event : AuthEvent)
    (h enc creds u pw arn : String)
    (hh : lookupHeader event.headers "Authorization" = some h) (hne : h ≠ "")
    (hlow : pyStartsWith (pyLower h) "basic " = true)
    (henc : (pySplitSpace h)[1]? = some enc)
    (hb64 : env.b64decode enc = Except.ok creds)
    (hsplit : splitFirstColon creds = some (u, pw))
    (hadmin : env.adminBind = true)
    (harn : event.methodArn = some arn)
    (hfail : env.searchUser u = none ∨
      ∃ dn, env.searchUser u = some dn ∧ env.userBind dn pw = false) :
    Authorizer.handler env event = Except.ok (Authorizer.generate_deny_policy arn) ∧
    (Authorizer.generate_deny_policy arn).principalId = "user" ∧
    (Authorizer.generate_deny_policy arn).context = none := by
  refine ⟨?_, rfl, rfl⟩
  unfold Authorizer.handler
  cases hsec : env.getSecret with
  | error e =>
      rw [show Authorizer.handlerTry env event = Except.error () from by
        unfold Authorizer.handlerTry; rw [hsec], harn]
      rfl
  | ok sec =>
      rcases hfail with hnone | ⟨dn, hdn, hbind⟩
      · rw [show Authorizer.handlerTry env event =
            Authorizer.policyAt event.methodArn Authorizer.generate_deny_policy from by
          unfold Authorizer.handlerTry
          rw [hsec, hh]
          simp [truthy, hne, hlow, henc, hb64, hsplit, hadmin, hnone], harn]
        rfl
      · rw [show Authorizer.handlerTry env event = Except.error () from by
          unfold Authorizer.handlerTry
          rw [hsec, hh]
          simp [truthy, hne, hlow, henc, hb64, hsplit, hadmin, hdn, hbind], harn]
        rfl

theorem parsed_creds_deny_placeholder_witness :
    lookupHeader eventBasic.headers "Authorization" = some "Basic YWxpY2U6cHc=" ∧
    pyStartsWith (pyLower "Basic YWxpY2U6cHc=") "basic " = true ∧
    (pySplitSpace "Basic YWxpY2U6cHc=")[1]? = some "YWxpY2U6cHc=" ∧
    envUserNotFound.b64decode "YWxpY2U6cHc=" = Except.ok "alice:pw" ∧
    splitFirstColon "alice:pw" = some ("alice", "pw") ∧
    Authorizer.handler envUserNotFound eventBasic =
      Except.ok (Authorizer.generate_deny_policy "arn1") ∧
    (Authorizer.generate_deny_policy "arn1").principalId = "user" ∧
    (Authorizer.generate_deny_policy "arn1").context = none :=
  ⟨rfl, rfl, rfl, rfl, rfl,
   parsed_creds_deny_placeholder envUserNotFound eventBasic "Basic YWxpY2U6cHc="
     "YWxpY2U6cHc=" "alice:pw" "alice" "pw" "arn1" rfl (by decide) rfl rfl rfl rfl rfl rfl
     (Or.inl rfl)⟩

theorem handlerTry_context_allow (env : AuthEnv) (event : AuthEvent)
    (d : Authorizer.AuthDecision) (h : Authorizer.handlerTry env event = Except.ok d)
    (hc : d.context ≠ none) : d.effect = "Allow" := by
  unfold Authorizer.handlerTry Authorizer.policyAt at h
  repeat' split at h
  all_goals try cases h
  all_goals first
    | rfl
    | exact (hc rfl).elim

/-- C9: an identity context appears in a decision returned by
`authorizer.handler` only when the decision's effect is `Allow`: no Deny
decision it produces ever carries a context. -/
theorem context_only_with_allow (env : AuthEnv) (event : AuthEvent)
    (d : Authorizer.AuthDecision) (h : Authorizer.handler env event = Except.ok d)
    (hc : d.context ≠ none) : d.effect = "Allow" := by
  unfold Authorizer.handler at h
  cases ht : Authorizer.handlerTry env event with
  | ok d0 =>
      rw [ht] at h
      cases h
      exact handlerTry_context_allow env event d ht hc
  | error e =>
      rw [ht] at h
      unfold Authorizer.policyAt at h
      cases harn : event.methodArn with
      | some arn =>
          rw [harn] at h
          cases h
          exact (hc rfl).elim
      | none =>
          rw [harn] at h
          cases h

theorem context_only_with_allow_witness :
    Authorizer.handler envAllowAll eventBasic =
      Except.ok (Authorizer.generate_allow_policy "alice" "arn1"
        (Authorizer.IdentityCtx.mk "alice" "pw")) ∧
    (Authorizer.generate_allow_policy "alice" "arn1"
      (Authorizer.IdentityCtx.mk "alice" "pw")).effect = "Allow" :=
  ⟨rfl, context_only_with_allow envAllowAll eventBasic _ rfl (by
    simp [Authorizer.generate_allow_policy, Authorizer.generate_policy])⟩

/-- C6: for every body object of depth at most 3 whose leaves are all
scalars (and whose keys are well-formed XML names, so the serialized
document is parseable), serializing the rendered tree and parsing it back
yields, for every leaf key path of the object, exactly one element nested
along exactly that key path, whose text equals the string form of the leaf
scalar (and which has no further content). -/
theorem body_roundtrip (rootTag : String) (j : Json) (p : List String) (v : Json)
    (_hobj : j.isObj = true) (hs : scalarObj j = true) (_hd : objDepth j ≤ 3)
    (_hv : validKeys j = true) (hm : (p, v) ∈ leafPaths j) :
    ∃ e, elemsAt p (parseOfSerialize (json_to_xml_elements (XmlElem.empty rootTag) j)) = [e] ∧
      e.text = some (pyStr v) ∧ e.children = [] := by
  rw [parseOfSerialize_id]
  exact elemsAt_render p j v rootTag hs hm

theorem body_roundtrip_witness :
    (Json.obj [("customer", Json.obj [("name", Json.str "Jane")]),
      ("age", Json.num 7)]).isObj = true ∧
    scalarObj (Json.obj [("customer", Json.obj [("name", Json.str "Jane")]),
      ("age", Json.num 7)]) = true ∧
    objDepth (Json.obj [("customer", Json.obj [("name", Json.str "Jane")]),
      ("age", Json.num 7)]) ≤ 3 ∧
    validKeys (Json.obj [("customer", Json.obj [("name", Json.str "Jane")]),
      ("age", Json.num 7)]) = true ∧
    (["customer", "name"], Json.str "Jane") ∈
      leafPaths (Json.obj [("customer", Json.obj [("name", Json.str "Jane")]),
        ("age", Json.num 7)]) ∧
    ∃ e, elemsAt ["customer", "name"]
        (parseOfSerialize (json_to_xml_elements (XmlElem.empty "Root")
          (Json.obj [("customer", Json.obj [("name", Json.str "Jane")]),
            ("age", Json.num 7)]))) = [e] ∧
      e.text = some (pyStr (Json.str "Jane")) ∧ e.children = [] :=
  ⟨rfl, rfl, by decide, rfl, List.Mem.head _,
   body_roundtrip "Root"
     (Json.obj [("customer", Json.obj [("name", Json.str "Jane")]), ("age", Json.num 7)])
     ["customer", "name"] (Json.str "Jane") rfl rfl (by decide) rfl (List.Mem.head _)⟩
